import Mathlib

/-!
Shallow embedding of `src/tools/gen_icon.py` (the Oxidate icon generator).

The program is a straight-line pipeline: render an icon at a supersampled
resolution with PIL, downscale it, export a fixed table of resized PNGs into
an iconset directory, and invoke the external `iconutil` command to package
the directory into an `.icns` container.

PIL raster operations (ellipse drawing, Gaussian blur, compositing, Lanczos
and bilinear resampling) are external library primitives, not code of this
repository; they are embedded as constructors of a free algebra `Img` whose
size and mode semantics follow PIL (`resize` produces the requested size and
keeps the mode, drawing and blurring keep size and mode, `composite` takes
the first image's geometry, `alpha_composite` mutates the destination).  The
gradient built pixel by pixel in `_make_vertical_gradient` is embedded with
its exact per-pixel arithmetic, with Python float expressions carried out in
exact rational arithmetic and Python `int()` truncation as `pyInt`.
-/

/-- An RGBA color: Python's 4-tuples of ints, e.g. `(20, 24, 30, 255)`. -/
abbrev Color := Int × Int × Int × Int

/-- Python `int()` applied to an exact rational: truncation toward zero. -/
def pyInt (q : ℚ) : ℤ := if 0 ≤ q then ⌊q⌋ else -⌊-q⌋

/-- `PIL.Image.Resampling` filters used by the program. -/
inductive Resampling where
  | LANCZOS
  | BILINEAR
deriving DecidableEq

/-- Fill argument of `ImageDraw.ellipse`: a gray level on mode-"L" images,
an RGBA tuple on mode-"RGBA" images. -/
inductive Fill where
  | gray (v : Int)
  | rgba (c : Color)

/-- Free algebra over the PIL image operations used by `gen_icon.py`.
`col` is a `1 × height` image given by an explicit per-row pixel function
(the result of the putpixel loop in `_make_vertical_gradient`). -/
inductive Img where
  | new (mode : String) (w h : Int) (c : Color)
  | newL (w h : Int) (v : Int)
  | col (height : Int) (px : Int → Color)
  | resize (i : Img) (w h : Int) (f : Resampling)
  | ellipse (i : Img) (x0 y0 x1 y1 : ℚ) (fill : Fill)
  | gaussianBlur (i : Img) (radius : ℚ)
  | composite (a b mask : Img)
  | alphaComposite (dst src : Img)

/-- Pixel width, per PIL semantics of each operation. -/
def Img.width : Img → Int
  | .new _ w _ _ => w
  | .newL w _ _ => w
  | .col _ _ => 1
  | .resize _ w _ _ => w
  | .ellipse i _ _ _ _ _ => i.width
  | .gaussianBlur i _ => i.width
  | .composite a _ _ => a.width
  | .alphaComposite d _ => d.width

/-- Pixel height, per PIL semantics of each operation. -/
def Img.height : Img → Int
  | .new _ _ h _ => h
  | .newL _ h _ => h
  | .col h _ => h
  | .resize _ _ h _ => h
  | .ellipse i _ _ _ _ _ => i.height
  | .gaussianBlur i _ => i.height
  | .composite a _ _ => a.height
  | .alphaComposite d _ => d.height

/-- Image mode; `composite(a, b, mask)` returns the mode of `a`,
`alpha_composite` mutates the destination in place. -/
def Img.mode : Img → String
  | .new m _ _ _ => m
  | .newL _ _ _ => "L"
  | .col _ _ => "RGBA"
  | .resize i _ _ _ => i.mode
  | .ellipse i _ _ _ _ _ => i.mode
  | .gaussianBlur i _ => i.mode
  | .composite a _ _ => a.mode
  | .alphaComposite d _ => d.mode

/-- Row `y` of a `1 × height` column image; other shapes have no
single-column pixel accessor. -/
def Img.colPx : Img → Int → Color
  | .col _ px, y => px y
  | _, _ => (0, 0, 0, 0)

/-- `BG = (20, 24, 30, 255)`. -/
def BG : Color := (20, 24, 30, 255)

/-- `INNER = (34, 40, 52, 255)`. -/
def INNER : Color := (34, 40, 52, 255)

/-- One channel of the gradient loop body:
`int(top[k] + (bottom[k] - top[k]) * t)`. -/
def grad_chan (a b : Int) (t : ℚ) : Int :=
  pyInt ((a : ℚ) + ((b : ℚ) - (a : ℚ)) * t)

/-- Body of the putpixel loop of `_make_vertical_gradient`:
`t = y / max(1, height - 1)` and each channel interpolated by `t`. -/
def grad_px (top bottom : Color) (height y : Int) : Color :=
  let t : ℚ := (y : ℚ) / ((max 1 (height - 1) : Int) : ℚ)
  (grad_chan top.1 bottom.1 t,
   grad_chan top.2.1 bottom.2.1 t,
   grad_chan top.2.2.1 bottom.2.2.1 t,
   grad_chan top.2.2.2 bottom.2.2.2 t)

/-- `_make_vertical_gradient(height, top, bottom)`: a new `1 × height`
RGBA column whose pixel at row `y` is set by the loop body. -/
def _make_vertical_gradient (height : Int) (top bottom : Color) : Img :=
  Img.col height (fun y => grad_px top bottom height y)

/-- Working resolution `ss = int(base_size * supersample)` of `render_icon`. -/
def working_size (base_size supersample : Int) : Int :=
  base_size * supersample

/-- `r_outer = int(0.41 * ss)`. -/
def r_outer (ss : Int) : Int := pyInt ((41 : ℚ) / 100 * (ss : ℚ))

/-- `r_inner = int(0.295 * ss)`. -/
def r_inner (ss : Int) : Int := pyInt ((295 : ℚ) / 1000 * (ss : ℚ))

/-- `inner_r = r_inner - int(0.01 * ss)`: radius of the opaque inner disc. -/
def inner_r (ss : Int) : Int := r_inner ss - pyInt ((1 : ℚ) / 100 * (ss : ℚ))

/-- `render_icon(base_size, supersample)`: draw at `base_size * supersample`,
composite ring gradient, inner disc and highlight dot, then downscale to
`base_size × base_size` with Lanczos. -/
def render_icon (base_size : Int) (supersample : Int) : Img :=
  let ss := working_size base_size supersample
  let cx : ℚ := (ss : ℚ) / 2
  let cy : ℚ := cx
  let rO := r_outer ss
  let rI := r_inner ss
  let img0 := Img.new "RGBA" ss ss BG
  let mask0 := Img.newL ss ss 0
  let mask1 := Img.ellipse mask0 (cx - rO) (cy - rO) (cx + rO) (cy + rO) (Fill.gray 255)
  let mask2 := Img.ellipse mask1 (cx - rI) (cy - rI) (cx + rI) (cy + rI) (Fill.gray 0)
  let ring_mask := Img.gaussianBlur mask2 ((6 : ℚ) / 5 * (supersample : ℚ))
  let grad_col := _make_vertical_gradient ss (245, 150, 45, 255) (205, 120, 35, 255)
  let grad := Img.resize grad_col ss ss Resampling.BILINEAR
  let ring := Img.composite grad (Img.new "RGBA" ss ss (0, 0, 0, 0)) ring_mask
  let img1 := Img.alphaComposite img0 ring
  let ir := inner_r ss
  let img2 := Img.ellipse img1 (cx - ir) (cy - ir) (cx + ir) (cy + ir) (Fill.rgba INNER)
  let hdR := pyInt ((5 : ℚ) / 100 * (ss : ℚ))
  let hx : ℚ := cx + (pyInt ((23 : ℚ) / 100 * (ss : ℚ)) : ℚ)
  let hy : ℚ := cy - (pyInt ((21 : ℚ) / 100 * (ss : ℚ)) : ℚ)
  let dot0 := Img.new "RGBA" ss ss (0, 0, 0, 0)
  let dot1 := Img.ellipse dot0 (hx - hdR) (hy - hdR) (hx + hdR) (hy + hdR)
    (Fill.rgba (255, 230, 160, 180))
  let dot := Img.gaussianBlur dot1 ((12 : ℚ) / 1000 * (ss : ℚ))
  let img3 := Img.alphaComposite img2 dot
  Img.resize img3 base_size base_size Resampling.LANCZOS

/-- The fixed macOS iconset table of `write_iconset`: filenames and sizes. -/
def iconset_sizes : List (String × Int) :=
  [("icon_16x16.png", 16),
   ("icon_16x16@2x.png", 32),
   ("icon_32x32.png", 32),
   ("icon_32x32@2x.png", 64),
   ("icon_128x128.png", 128),
   ("icon_128x128@2x.png", 256),
   ("icon_256x256.png", 256),
   ("icon_256x256@2x.png", 512),
   ("icon_512x512.png", 512),
   ("icon_512x512@2x.png", 1024)]

/-- A directory listing: filenames with their image contents. -/
abbrev Dir := List (String × Img)

/-- `resized.save(out)`: writing a file into a directory overwrites an
existing entry of the same name, otherwise appends a new entry. -/
def saveInto (d : Dir) (name : String) (i : Img) : Dir :=
  if d.any (fun e => e.1 == name) then
    d.map (fun e => if e.1 == name then (name, i) else e)
  else
    d ++ [(name, i)]

/-- `write_iconset(base_png, iconset_dir)` as a transformer of the iconset
directory state (`none` = directory absent): if the directory exists it is
removed (`shutil.rmtree`), then created (`mkdir` with `exist_ok=True`, which
keeps existing contents when present), then each table entry is saved as the
base resized to the table size with Lanczos. -/
def write_iconset_fs (base_png : Img) (prev : Option Dir) : Dir :=
  let afterRm : Option Dir := if prev.isSome then none else prev
  let start : Dir := afterRm.getD []
  iconset_sizes.foldl
    (fun d p => saveInto d p.1 (Img.resize base_png p.2 p.2 Resampling.LANCZOS)) start

/-- The directory contents a fresh run of `write_iconset` produces. -/
def iconset_files (base : Img) : Dir :=
  iconset_sizes.map (fun p => (p.1, Img.resize base p.2 p.2 Resampling.LANCZOS))

/-- Python exceptions the pipeline can raise in this model. -/
inductive PyError where
  | calledProcessError (returncode : Int)
deriving DecidableEq

/-- External-world inputs: the exit status of the `iconutil` command
(a missing utility is observed as a failing, nonzero status). -/
structure Env where
  iconutilExit : Int

/-- `build_icns`: `subprocess.run([...iconutil...], check=True)` raises
`CalledProcessError` exactly when the command's exit status is nonzero. -/
def build_icns (env : Env) : Except PyError Unit :=
  if env.iconutilExit = 0 then Except.ok ()
  else Except.error (PyError.calledProcessError env.iconutilExit)

/-- Parsed command-line arguments of `main`. -/
structure Args where
  assetsDir : String
  baseSize : Int
  supersample : Int

/-- The defaults of the argument parser. -/
def defaultArgs : Args := { assetsDir := "assets", baseSize := 1024, supersample := 4 }

/-- The supersample value `main` passes to the renderer:
`max(1, args.supersample)`. -/
def main_supersample (args : Args) : Int := max 1 args.supersample

/-- Observable filesystem and console state of one run. -/
structure FS where
  basePng : Option Img
  iconsetDir : Option Dir
  icnsFile : Bool
  printed : List String

/-- `main()`: render the base image, write `oxidate.png`, write the iconset
directory, package with `iconutil`, then print the two output paths.  An
uncaught `CalledProcessError` from `build_icns` aborts the run, leaving the
state written by the earlier stages. -/
def main_run (env : Env) (args : Args) (fs0 : FS) : Except PyError Unit × FS :=
  let base := render_icon args.baseSize (main_supersample args)
  let basePngPath := args.assetsDir ++ "/oxidate.png"
  let icnsPath := args.assetsDir ++ "/oxidate.icns"
  let fs1 : FS := { fs0 with basePng := some base }
  let fs2 : FS := { fs1 with iconsetDir := some (write_iconset_fs base fs1.iconsetDir) }
  match build_icns env with
  | Except.error e => (Except.error e, fs2)
  | Except.ok _ =>
      (Except.ok (),
       { fs2 with
         icnsFile := true,
         printed := fs2.printed ++ ["wrote " ++ basePngPath, "wrote " ++ icnsPath] })

/-- Exit status of the Python process: zero on a clean return from `main`,
nonzero when an exception propagates uncaught. -/
def exit_code (r : Except PyError Unit) : Int :=
  match r with
  | Except.ok _ => 0
  | Except.error _ => 1

/-! ## Helper lemmas -/

theorem pyInt_intCast (a : Int) : pyInt (a : ℚ) = a := by
  unfold pyInt
  split
  · exact Int.floor_intCast a
  · rw [← Int.cast_neg, Int.floor_intCast, neg_neg]

theorem pyInt_of_nonneg {q : ℚ} (h : 0 ≤ q) : pyInt q = ⌊q⌋ := by
  unfold pyInt
  exact if_pos h

theorem write_iconset_fs_fresh (base : Img) (prev : Option Dir) :
    write_iconset_fs base prev = iconset_files base := by
  cases prev <;>
    simp [write_iconset_fs, iconset_files, iconset_sizes, saveInto]

/-! ## Claim theorems -/

/-- Claim C1: for every base image (and every prior directory state),
`write_iconset` produces a directory holding exactly the ten fixed
filenames, whose pixel dimensions are 16, 32, 32, 64, 128, 256, 256, 512,
512 and 1024 regardless of the base image's size, each entry being the same
base image resized to that size with the Lanczos filter. -/
theorem write_iconset_ten_fixed_files (base : Img) (prev : Option Dir) :
    (write_iconset_fs base prev).map Prod.fst =
      ["icon_16x16.png", "icon_16x16@2x.png", "icon_32x32.png",
       "icon_32x32@2x.png", "icon_128x128.png", "icon_128x128@2x.png",
       "icon_256x256.png", "icon_256x256@2x.png", "icon_512x512.png",
       "icon_512x512@2x.png"] ∧
    (write_iconset_fs base prev).map (fun p => (p.2.width, p.2.height)) =
      [(16, 16), (32, 32), (32, 32), (64, 64), (128, 128), (256, 256),
       (256, 256), (512, 512), (512, 512), (1024, 1024)] ∧
    write_iconset_fs base prev =
      iconset_sizes.map (fun p => (p.1, Img.resize base p.2 p.2 Resampling.LANCZOS)) := by
  rw [write_iconset_fs_fresh]
  refine ⟨rfl, rfl, rfl⟩

/-- Claim C4: if the iconset directory already exists with arbitrary prior
contents, `write_iconset` fully replaces it: the result is identical to a
run against an absent directory, so it holds exactly the ten table files
and nothing from the previous population survives. -/
theorem write_iconset_replaces_directory (base : Img) (d : Dir) :
    write_iconset_fs base (some d) = write_iconset_fs base none ∧
    (write_iconset_fs base (some d)).map Prod.fst =
      ["icon_16x16.png", "icon_16x16@2x.png", "icon_32x32.png",
       "icon_32x32@2x.png", "icon_128x128.png", "icon_128x128@2x.png",
       "icon_256x256.png", "icon_256x256@2x.png", "icon_512x512.png",
       "icon_512x512@2x.png"] := by
  rw [write_iconset_fs_fresh, write_iconset_fs_fresh]
  exact ⟨rfl, rfl⟩

/-- Claim C2: for every `base_size ≥ 1` and `supersample ≥ 1`, the image
returned by `render_icon` is RGBA and exactly `base_size × base_size`. -/
theorem render_icon_dimensions (base_size supersample : Int)
    (hb : 1 ≤ base_size) (hs : 1 ≤ supersample) :
    (render_icon base_size supersample).width = base_size ∧
    (render_icon base_size supersample).height = base_size ∧
    (render_icon base_size supersample).mode = "RGBA" := by
  refine ⟨rfl, rfl, rfl⟩

/-- Witness for C2 at the default base size 1024 and supersample 4. -/
theorem render_icon_dimensions_witness :
    (render_icon 1024 4).width = 1024 ∧
    (render_icon 1024 4).height = 1024 ∧
    (render_icon 1024 4).mode = "RGBA" :=
  render_icon_dimensions 1024 4 (by decide) (by decide)

/-- Claim C5: `build_icns` raises exactly when `iconutil` exits nonzero; the
error propagates uncaught through `main`, so the process exits nonzero; on
success `main` prints the two written output paths and exits zero. -/
theorem build_icns_failure_propagates (env : Env) (args : Args) (fs0 : FS) :
    ((∃ e, build_icns env = Except.error e) ↔ env.iconutilExit ≠ 0) ∧
    (env.iconutilExit ≠ 0 →
      (main_run env args fs0).1 =
        Except.error (PyError.calledProcessError env.iconutilExit) ∧
      exit_code (main_run env args fs0).1 ≠ 0) ∧
    (env.iconutilExit = 0 →
      (main_run env args fs0).1 = Except.ok () ∧
      exit_code (main_run env args fs0).1 = 0 ∧
      (main_run env args fs0).2.printed =
        fs0.printed ++
          ["wrote " ++ (args.assetsDir ++ "/oxidate.png"),
           "wrote " ++ (args.assetsDir ++ "/oxidate.icns")]) := by
  by_cases h : env.iconutilExit = 0 <;>
    simp [main_run, build_icns, exit_code, h]

/-- Witness for C5: with `iconutil` failing with status 1 the run errors and
exits nonzero; with status 0 it prints the two default output paths. -/
theorem build_icns_failure_propagates_witness :
    ((main_run { iconutilExit := 1 } defaultArgs
        { basePng := none, iconsetDir := none, icnsFile := false, printed := [] }).1 =
      Except.error (PyError.calledProcessError 1) ∧
     exit_code (main_run { iconutilExit := 1 } defaultArgs
        { basePng := none, iconsetDir := none, icnsFile := false, printed := [] }).1 ≠ 0) ∧
    (main_run { iconutilExit := 0 } defaultArgs
        { basePng := none, iconsetDir := none, icnsFile := false, printed := [] }).2.printed =
      [] ++ ["wrote " ++ ("assets" ++ "/oxidate.png"),
             "wrote " ++ ("assets" ++ "/oxidate.icns")] :=
  ⟨(build_icns_failure_propagates { iconutilExit := 1 } defaultArgs
      { basePng := none, iconsetDir := none, icnsFile := false, printed := [] }).2.1
      (by decide),
   ((build_icns_failure_propagates { iconutilExit := 0 } defaultArgs
      { basePng := none, iconsetDir := none, icnsFile := false, printed := [] }).2.2
      rfl).2.2⟩

/-- Claim C6: the pipeline is strictly sequential; when the packaging stage
fails, the run aborts with that error while `oxidate.png` and the fully
populated iconset directory already exist from the earlier stages, and no
later stage runs (no `.icns` file is produced, nothing is printed). -/
theorem main_sequential_failure_state (env : Env) (args : Args) (fs0 : FS)
    (hfail : env.iconutilExit ≠ 0) :
    (main_run env args fs0).1 =
      Except.error (PyError.calledProcessError env.iconutilExit) ∧
    (main_run env args fs0).2.basePng =
      some (render_icon args.baseSize (main_supersample args)) ∧
    (main_run env args fs0).2.iconsetDir =
      some (iconset_files (render_icon args.baseSize (main_supersample args))) ∧
    (main_run env args fs0).2.icnsFile = fs0.icnsFile ∧
    (main_run env args fs0).2.printed = fs0.printed := by
  simp [main_run, build_icns, hfail, write_iconset_fs_fresh]

/-- Witness for C6 at a failing `iconutil` (status 127, utility missing). -/
theorem main_sequential_failure_state_witness :
    (main_run { iconutilExit := 127 } defaultArgs
        { basePng := none, iconsetDir := none, icnsFile := false, printed := [] }).2.basePng =
      some (render_icon 1024 (main_supersample defaultArgs)) ∧
    (main_run { iconutilExit := 127 } defaultArgs
        { basePng := none, iconsetDir := none, icnsFile := false, printed := [] }).2.icnsFile =
      false :=
  ⟨(main_sequential_failure_state { iconutilExit := 127 } defaultArgs
      { basePng := none, iconsetDir := none, icnsFile := false, printed := [] }
      (by decide)).2.1,
   (main_sequential_failure_state { iconutilExit := 127 } defaultArgs
      { basePng := none, iconsetDir := none, icnsFile := false, printed := [] }
      (by decide)).2.2.2.1⟩

/-- Claim C7: for every integer `--supersample` value, `main` clamps it to
`max(1, supersample)` before calling the renderer, so the renderer is always
invoked with a supersample of at least 1 and, for any `base_size ≥ 1`, the
working canvas `base_size * supersample` has at least one pixel. -/
theorem main_clamps_supersample (env : Env) (args : Args) (fs0 : FS) :
    main_supersample args = max 1 args.supersample ∧
    1 ≤ main_supersample args ∧
    (main_run env args fs0).2.basePng =
      some (render_icon args.baseSize (main_supersample args)) ∧
    (1 ≤ args.baseSize →
      1 ≤ working_size args.baseSize (main_supersample args)) := by
  refine ⟨rfl, le_max_left 1 _, ?_, ?_⟩
  · by_cases h : env.iconutilExit = 0 <;> simp [main_run, build_icns, h]
  · intro hb
    have h1 : 1 ≤ max 1 args.supersample := le_max_left 1 _
    have := mul_le_mul hb h1 (by norm_num) (le_trans (by norm_num) hb)
    simpa [working_size, main_supersample] using this

/-- Witness for C7 at `--supersample -3`, `--base-size 1024`: the clamped
value is 1 and the working canvas is nonempty. -/
theorem main_clamps_supersample_witness :
    main_supersample { assetsDir := "assets", baseSize := 1024, supersample := -3 } =
      max 1 (-3) ∧
    1 ≤ working_size 1024
      (main_supersample { assetsDir := "assets", baseSize := 1024, supersample := -3 }) :=
  ⟨(main_clamps_supersample { iconutilExit := 0 }
      { assetsDir := "assets", baseSize := 1024, supersample := -3 }
      { basePng := none, iconsetDir := none, icnsFile := false, printed := [] }).1,
   (main_clamps_supersample { iconutilExit := 0 }
      { assetsDir := "assets", baseSize := 1024, supersample := -3 }
      { basePng := none, iconsetDir := none, icnsFile := false, printed := [] }).2.2.2
      (by decide)⟩

/-- Claim C3: `render_icon` and the whole run are deterministic — the model
has no source of randomness, so any two evaluations at the same inputs give
the same image, and two runs of `main` yield identical results, in
particular identical `oxidate.png` contents. -/
theorem render_icon_deterministic (base_size supersample : Int)
    (env : Env) (args : Args) (fs0 : FS)
    (i1 i2 : Img) (o1 o2 : Except PyError Unit × FS)
    (g1 : i1 = render_icon base_size supersample)
    (g2 : i2 = render_icon base_size supersample)
    (h1 : o1 = main_run env args fs0) (h2 : o2 = main_run env args fs0) :
    i1 = i2 ∧ o1 = o2 ∧ o1.2.basePng = o2.2.basePng := by
  subst g1; subst g2; subst h1; subst h2
  exact ⟨rfl, rfl, rfl⟩

/-- Witness for C3 at the default inputs. -/
theorem render_icon_deterministic_witness :
    render_icon 1024 4 = render_icon 1024 4 ∧
    main_run { iconutilExit := 0 } defaultArgs
        { basePng := none, iconsetDir := none, icnsFile := false, printed := [] } =
      main_run { iconutilExit := 0 } defaultArgs
        { basePng := none, iconsetDir := none, icnsFile := false, printed := [] } :=
  ⟨(render_icon_deterministic 1024 4 { iconutilExit := 0 } defaultArgs
      { basePng := none, iconsetDir := none, icnsFile := false, printed := [] }
      (render_icon 1024 4) (render_icon 1024 4) _ _ rfl rfl rfl rfl).1,
   (render_icon_deterministic 1024 4 { iconutilExit := 0 } defaultArgs
      { basePng := none, iconsetDir := none, icnsFile := false, printed := [] }
      (render_icon 1024 4) (render_icon 1024 4) _ _ rfl rfl rfl rfl).2.1⟩

/-- Evaluation rule for `pyInt` on nonnegative values. -/
theorem pyInt_eq (q : ℚ) (n : ℤ) (h0 : 0 ≤ n) (h1 : (n : ℚ) ≤ q) (h2 : q < n + 1) :
    pyInt q = n := by
  have hq : 0 ≤ q := le_trans (by exact_mod_cast h0) h1
  unfold pyInt
  rw [if_pos hq]
  exact Int.floor_eq_iff.mpr ⟨h1, h2⟩

theorem grad_chan_zero (a b : Int) : grad_chan a b 0 = a := by
  unfold grad_chan
  rw [mul_zero, add_zero, pyInt_intCast]

theorem grad_chan_one (a b : Int) : grad_chan a b 1 = b := by
  unfold grad_chan
  rw [mul_one]
  have h : (a : ℚ) + ((b : ℚ) - (a : ℚ)) = ((b : Int) : ℚ) := by push_cast; ring
  rw [h, pyInt_intCast]

theorem grad_chan_formula (a b y height : Int) (hh : 2 ≤ height) :
    grad_chan a b ((y : ℚ) / ((max 1 (height - 1) : Int) : ℚ)) =
      pyInt ((a : ℚ) + ((b : ℚ) - (a : ℚ)) * (y : ℚ) / ((height : ℚ) - 1)) := by
  have hm : max 1 (height - 1) = height - 1 := max_eq_right (by omega)
  rw [hm]
  unfold grad_chan
  congr 1
  push_cast
  ring

theorem grad_px_zero (top bottom : Color) (height : Int) :
    grad_px top bottom height 0 = top := by
  unfold grad_px
  simp [grad_chan_zero]

theorem grad_px_last (top bottom : Color) (height : Int) (hh : 2 ≤ height) :
    grad_px top bottom height (height - 1) = bottom := by
  unfold grad_px
  have hm : max 1 (height - 1) = height - 1 := max_eq_right (by omega)
  have hne : ((height - 1 : Int) : ℚ) ≠ 0 := by
    exact_mod_cast (by omega : (height - 1 : Int) ≠ 0)
  rw [hm, div_self hne]
  simp [grad_chan_one]

/-- Claim C8: for every `height ≥ 1`, `_make_vertical_gradient` returns a
`1 × height` image whose pixel at row `y` has every channel equal to
`int(top + (bottom - top) * y / (height - 1))` (for `height ≥ 2`, where the
guarded divisor `max(1, height - 1)` equals `height - 1`), with the top row
equal to the top color and the bottom row equal to the bottom color; in the
degenerate case `height = 1` the single row is exactly the top color. -/
theorem make_vertical_gradient_linear (height y : Int) (top bottom : Color)
    (hh : 1 ≤ height) (hy0 : 0 ≤ y) (hyh : y < height) :
    (_make_vertical_gradient height top bottom).width = 1 ∧
    (_make_vertical_gradient height top bottom).height = height ∧
    (2 ≤ height →
      (_make_vertical_gradient height top bottom).colPx y =
        (pyInt ((top.1 : ℚ) + ((bottom.1 : ℚ) - (top.1 : ℚ)) * (y : ℚ) / ((height : ℚ) - 1)),
         pyInt ((top.2.1 : ℚ) + ((bottom.2.1 : ℚ) - (top.2.1 : ℚ)) * (y : ℚ) / ((height : ℚ) - 1)),
         pyInt ((top.2.2.1 : ℚ) + ((bottom.2.2.1 : ℚ) - (top.2.2.1 : ℚ)) * (y : ℚ) / ((height : ℚ) - 1)),
         pyInt ((top.2.2.2 : ℚ) + ((bottom.2.2.2 : ℚ) - (top.2.2.2 : ℚ)) * (y : ℚ) / ((height : ℚ) - 1)))) ∧
    (_make_vertical_gradient height top bottom).colPx 0 = top ∧
    (2 ≤ height →
      (_make_vertical_gradient height top bottom).colPx (height - 1) = bottom) ∧
    (height = 1 → (_make_vertical_gradient height top bottom).colPx 0 = top) := by
  refine ⟨rfl, rfl, ?_, ?_, ?_, ?_⟩
  · intro h2
    show grad_px top bottom height y = _
    simp only [grad_px]
    rw [grad_chan_formula _ _ _ _ h2, grad_chan_formula _ _ _ _ h2,
        grad_chan_formula _ _ _ _ h2, grad_chan_formula _ _ _ _ h2]
  · exact grad_px_zero top bottom height
  · intro h2
    exact grad_px_last top bottom height h2
  · intro _
    exact grad_px_zero top bottom height

/-- Witness for C8 at `height = 3`, `y = 1`, with the ring gradient's actual
colors: the middle row interpolates, the top row is the top color. -/
theorem make_vertical_gradient_linear_witness :
    (_make_vertical_gradient 3 (245, 150, 45, 255) (205, 120, 35, 255)).colPx 0 =
      (245, 150, 45, 255) ∧
    (_make_vertical_gradient 3 (245, 150, 45, 255) (205, 120, 35, 255)).colPx (3 - 1) =
      (205, 120, 35, 255) :=
  ⟨(make_vertical_gradient_linear 3 1 (245, 150, 45, 255) (205, 120, 35, 255)
      (by decide) (by decide) (by decide)).2.2.2.1,
   (make_vertical_gradient_linear 3 1 (245, 150, 45, 255) (205, 120, 35, 255)
      (by decide) (by decide) (by decide)).2.2.2.2.1 (by decide)⟩

theorem working_size_64_1 : working_size 64 1 = 64 := by decide

theorem pyInt_hundredth_64 : pyInt ((1 : ℚ) / 100 * ((64 : Int) : ℚ)) = 0 :=
  pyInt_eq _ 0 (by norm_num) (by norm_num) (by norm_num)

/-- Counterexample to C9: at `base_size = 64`, `supersample = 1`, the file
`icon_512x512@2x.png` is not written as a 64×64 image — its dimensions
follow the fixed table and are 1024×1024. -/
theorem iconset_512_2x_not_64 :
    ((write_iconset_fs (render_icon 64 1) none).lookup "icon_512x512@2x.png").map
        (fun i => (i.width, i.height)) = some ((1024 : Int), (1024 : Int)) ∧
    ((write_iconset_fs (render_icon 64 1) none).lookup "icon_512x512@2x.png").map
        (fun i => (i.width, i.height)) ≠ some ((64 : Int), (64 : Int)) := by
  rw [write_iconset_fs_fresh]
  constructor
  · simp [iconset_files, iconset_sizes, List.lookup, Img.width, Img.height]
  · simp [iconset_files, iconset_sizes, List.lookup, Img.width, Img.height]

/-- Claim C9 as amended: for `base_size = 64`, `supersample = 1`, the
renderer's output is a 64×64 RGBA image and the exporter writes
`icon_512x512@2x.png` as a 1024×1024 image obtained by Lanczos-resampling
(upsampling) that 64×64 base image. -/
theorem iconset_512_2x_from_base_64 :
    (render_icon 64 1).width = 64 ∧
    (render_icon 64 1).height = 64 ∧
    (render_icon 64 1).mode = "RGBA" ∧
    (write_iconset_fs (render_icon 64 1) none).lookup "icon_512x512@2x.png" =
      some (Img.resize (render_icon 64 1) 1024 1024 Resampling.LANCZOS) := by
  refine ⟨rfl, rfl, rfl, ?_⟩
  rw [write_iconset_fs_fresh]
  simp [iconset_files, iconset_sizes, List.lookup]

/-- Counterexample to C10: at `base_size = 64`, `supersample = 1` the
working size is 64, `int(0.01 * 64) = 0`, so the inner disc radius equals
the ring's inner radius instead of being strictly smaller. -/
theorem inner_disc_radius_not_strict :
    inner_r (working_size 64 1) = r_inner (working_size 64 1) ∧
    ¬ inner_r (working_size 64 1) < r_inner (working_size 64 1) := by
  have heq : inner_r (working_size 64 1) = r_inner (working_size 64 1) := by
    rw [working_size_64_1]
    unfold inner_r
    rw [pyInt_hundredth_64, sub_zero]
  exact ⟨heq, by rw [heq]; exact lt_irrefl _⟩

/-- Claim C10 as amended: for every `base_size ≥ 1` and `supersample ≥ 1`
the inner disc radius `r_inner - int(0.01 * ss)` never exceeds the ring's
inner radius, and it is strictly smaller whenever the working size
`ss = base_size * supersample` is at least 100 (so in particular at the
default 1024 × 4 geometry the disc sits strictly inside the ring). -/
theorem inner_disc_radius_le (base_size supersample : Int)
    (hb : 1 ≤ base_size) (hs : 1 ≤ supersample) :
    inner_r (working_size base_size supersample) ≤
      r_inner (working_size base_size supersample) ∧
    (100 ≤ working_size base_size supersample →
      inner_r (working_size base_size supersample) <
        r_inner (working_size base_size supersample)) := by
  have hss1 : 1 ≤ working_size base_size supersample := by
    have := mul_le_mul hb hs (by norm_num) (le_trans (by norm_num) hb)
    simpa [working_size] using this
  have hsq : (0 : ℚ) ≤ ((working_size base_size supersample : Int) : ℚ) := by
    exact_mod_cast le_trans (by norm_num : (0 : Int) ≤ 1) hss1
  have hq : (0 : ℚ) ≤ (1 : ℚ) / 100 * ((working_size base_size supersample : Int) : ℚ) :=
    mul_nonneg (by norm_num) hsq
  constructor
  · unfold inner_r
    rw [pyInt_of_nonneg hq]
    exact sub_le_self _ (Int.floor_nonneg.mpr hq)
  · intro h100
    have hq1 : (1 : ℚ) ≤ (1 : ℚ) / 100 * ((working_size base_size supersample : Int) : ℚ) := by
      have : (100 : ℚ) ≤ ((working_size base_size supersample : Int) : ℚ) := by
        exact_mod_cast h100
      linarith
    unfold inner_r
    rw [pyInt_of_nonneg hq]
    have hfl : (1 : Int) ≤ ⌊(1 : ℚ) / 100 * ((working_size base_size supersample : Int) : ℚ)⌋ :=
      Int.le_floor.mpr (by exact_mod_cast hq1)
    exact sub_lt_self _ (lt_of_lt_of_le zero_lt_one hfl)

/-- Witness for the amended C10 at the default geometry 1024 × 4. -/
theorem inner_disc_radius_le_witness :
    inner_r (working_size 1024 4) < r_inner (working_size 1024 4) :=
  (inner_disc_radius_le 1024 4 (by decide) (by decide)).2 (by decide)
